import Mathlib

/-!
Shallow embedding of `bundle_osx.py` (napari-bundler).

The script is a linear macOS bundling pipeline.  We embed the CPython
`posixpath` helpers the script calls (`join`, `normpath`, `abspath`,
`expanduser`, `basename`, `dirname`), the CPython string operations it uses
(`str.strip(chars)`, `str.replace`), and then each function of the script
(`safe_conda_base`, `install_conda`, `conda_run`, `create_env`, `create_exe`,
`create_info_plist`, `copy_icon`, `make_dmg`) as a pure function over explicit
oracles for the ambient state (filesystem existence checks, `glob` results,
process environment, subprocess return codes).  Side effects are reified as an
explicit `Action` trace.
-/

namespace Bundler

/-- CPython `str.split(sep)` for a one-character separator: always returns at
least one (possibly empty) component. -/
def splitOnChar (sep : Char) : List Char → List (List Char)
  | [] => [[]]
  | c :: rest =>
    let r := splitOnChar sep rest
    if c = sep then [] :: r
    else
      match r with
      | h :: t => (c :: h) :: t
      | [] => [[c]]

/-- CPython `posixpath.join` restricted to two components, as the script uses it
(multi-component joins are folds of this). -/
def pyJoin (a b : String) : String :=
  if b.toList.head? = some '/' then b
  else if a = "" ∨ a.toList.getLast? = some '/' then a ++ b
  else a ++ "/" ++ b

/-- `posixpath.join` over a list of further components. -/
def pyJoinList (a : String) (bs : List String) : String :=
  bs.foldl pyJoin a

/-- CPython `posixpath.normpath`: collapse `//`, `.` and `..` components,
keeping the special double-initial-slash case. -/
def normpath (p : String) : String :=
  if p = "" then "."
  else
    let l := p.toList
    let initialSlashes : Nat :=
      if l.head? = some '/' then
        if l.take 2 = ['/', '/'] ∧ l.take 3 ≠ ['/', '/', '/'] then 2 else 1
      else 0
    let comps := splitOnChar '/' l
    let newComps : List (List Char) := comps.foldl
      (fun acc comp =>
        if comp = [] ∨ comp = ['.'] then acc
        else if comp ≠ ['.', '.'] ∨ (initialSlashes = 0 ∧ acc = []) ∨
            acc.getLast? = some ['.', '.'] then
          acc ++ [comp]
        else if acc ≠ [] then acc.dropLast
        else acc)
      []
    let res := List.replicate initialSlashes '/' ++ List.intercalate ['/'] newComps
    if res = [] then "." else String.mk res

/-- CPython `posixpath.expanduser` with the home directory passed explicitly.
The `~user` form consults the password database; it is modelled as the
unknown-user case (path returned unchanged), which is also CPython's behaviour
on a failed lookup.  All call sites in the script pass `~/...` or plain
user-supplied paths. -/
def expanduser (home p : String) : String :=
  if p.toList.head? ≠ some '~' then p
  else if (p.toList.drop 1).takeWhile (· ≠ '/') ≠ [] then p
  else
    let userhome := (home.toList.reverse.dropWhile (· = '/')).reverse
    let r := userhome ++ p.toList.drop 1
    if r = [] then "/" else String.mk r

/-- CPython `posixpath.abspath` with the working directory passed explicitly. -/
def abspath (cwd p : String) : String :=
  if p.toList.head? = some '/' then normpath p else normpath (pyJoin cwd p)

/-- CPython `posixpath.basename`: everything after the last slash. -/
def basename (p : String) : String :=
  String.mk (p.toList.reverse.takeWhile (· ≠ '/')).reverse

/-- CPython `posixpath.dirname`: everything before the last slash, with
trailing slashes stripped unless the result would be empty. -/
def dirname (p : String) : String :=
  let l := p.toList
  let tailLen := (l.reverse.takeWhile (· ≠ '/')).length
  let head := l.take (l.length - tailLen)
  let stripped := (head.reverse.dropWhile (· = '/')).reverse
  if stripped = [] then String.mk head else String.mk stripped

/-- CPython `str.strip(chars)`: remove leading and trailing characters that
belong to `chars`. -/
def pyStrip (chars : List Char) (s : String) : String :=
  String.mk (List.rdropWhile (chars.contains ·) (List.dropWhile (chars.contains ·) s.toList))

/-- Worker for `pyReplace` with a nonempty pattern `p0 :: prest`.  Structural
recursion on a fuel bound (each step consumes at least one character, so fuel
equal to the input length never runs out; the fuel-exhausted branch is
unreachable at the call site below). -/
def pyReplaceAux (p0 : Char) (prest rep : List Char) : Nat → List Char → List Char
  | _, [] => []
  | 0, l => l
  | fuel + 1, c :: rest =>
    if (p0 :: prest).isPrefixOf (c :: rest) then
      rep ++ pyReplaceAux p0 prest rep fuel (rest.drop prest.length)
    else c :: pyReplaceAux p0 prest rep fuel rest

/-- CPython `str.replace` (all occurrences, left to right, non-overlapping).
The script only replaces the nonempty literals `".app"` and template
placeholders, so the empty-pattern case is immaterial. -/
def pyReplace (s pat rep : String) : String :=
  match pat.toList with
  | [] => s
  | p0 :: prest => String.mk (pyReplaceAux p0 prest rep.toList s.toList.length s.toList)

/-- Python's `" " in s` membership test for the space character. -/
def hasSpace (s : String) : Bool :=
  s.toList.contains ' '

/-- The `PATH`/`PYTHONPATH` entries of the process environment handed to
`subprocess.run` by `conda_run` (the remaining variables are inherited
unchanged from `environ.copy()`). -/
structure ProcEnv where
  path : String
  pythonPath : String
  deriving DecidableEq, Repr

/-- Reified side effects of the script. -/
inductive Action where
  | download (url dest : String)
  | runProc (args : List String) (env : Option ProcEnv)
  | rmtree (p : String)
  | makedirs (p : String)
  | symlinkTo (src dest : String)
  | move (src dest : String)
  | copytree (src dest : String)
  | copyFile (src dest : String)
  | chmodTo (p : String) (mode : Nat)
  | writeFile (p : String) (contents : String)
  | logInfo (msg : String)
  | logWarning (msg : String)
  | logError (msg : String)
  | logDebug (msg : String)
  deriving DecidableEq, Repr

/-- Ambient state read by the script: the module-global parsed CLI arguments
(`args`), the process working directory and home directory (underlying
`abspath`/`expanduser`), `path.dirname(__file__)`, the inherited environment
variables, and oracles for the filesystem checks and `glob.glob` results. -/
structure Ctx where
  argsBuildpath : String
  argsIcon : String
  argsDistpath : String
  cwd : String
  home : String
  scriptDir : String
  ambientPath : String
  ambientPythonPath : String
  pathExists : String → Bool
  isFile : String → Bool
  isDir : String → Bool
  glob : String → List String

def MINICONDA_URL : String :=
  "https://repo.anaconda.com/miniconda/Miniconda3-latest-MacOSX-x86_64.sh"

/-- `safe_conda_base`.  Note the body's first line rebinds `buildpath` from the
module-global `args.buildpath`, so the `buildpath` parameter is dead (the
fallback branch additionally emits a `logging.warning`, omitted here: the
function is otherwise pure). -/
def safe_conda_base (g : Ctx) (buildpath : String) : String :=
  let buildpath := abspath g.cwd (expanduser g.home g.argsBuildpath)
  let conda_dir := pyJoin buildpath "conda"
  if hasSpace conda_dir = false then conda_dir
  else abspath g.cwd (expanduser g.home "~/_temp_conda")

/-- Result of `install_conda`: the action trace, the value stored into the
module-global `CONDA_BASE`, and the returned path. -/
structure InstallResult where
  actions : List Action
  condaBase : String
  result : String
  deriving DecidableEq, Repr

/-- `install_conda`. -/
def install_conda (g : Ctx) (buildpath : String) : InstallResult :=
  let conda_dir := safe_conda_base g buildpath
  if g.pathExists conda_dir = false then
    let miniconda_installer := pyJoin buildpath "miniconda_installer.sh"
    { actions :=
        [Action.logInfo ("Installing miniconda to " ++ conda_dir)] ++
        (if g.pathExists miniconda_installer = false then
          [Action.download MINICONDA_URL miniconda_installer]
        else []) ++
        [Action.runProc ["bash", miniconda_installer, "-b", "-p", "\"" ++ conda_dir ++ "\""] none],
      condaBase := conda_dir
      result := conda_dir }
  else
    { actions := [Action.logInfo ("Using existing miniconda installation at " ++ conda_dir)],
      condaBase := conda_dir
      result := conda_dir }

/-- `conda_run`: builds the overridden process environment and runs `args` with
it.  `condaBase` is the module-global `CONDA_BASE`.  Returns `none` when the
`assert path.isdir(CONDA_BASE)` fails, otherwise the environment passed to
`subprocess.run` together with the trace. -/
def conda_run (g : Ctx) (condaBase : String) (args : List String)
    (env_name : String := "base") : Option (ProcEnv × List Action) :=
  if g.isDir condaBase = false then none
  else
    let env : ProcEnv :=
      { path := pyJoin condaBase "bin" ++ ":" ++ g.ambientPath
        pythonPath := String.intercalate ":" (g.glob (condaBase ++ "/lib/python*/site-packages")) }
    let env : ProcEnv :=
      if env_name ≠ "base" then
        let env_dir := pyJoinList condaBase ["envs", env_name]
        { path := pyJoin env_dir "bin" ++ ":" ++ env.path
          pythonPath := String.intercalate ":" (g.glob (env_dir ++ "/lib/python*/site-packages")) }
      else env
    some (env,
      [Action.logDebug ("ENV_RUN: " ++ String.intercalate " " args),
       Action.runProc args (some env)])

/-- Result of `create_env`: its action trace and the returned `env_dir`. -/
structure EnvResult where
  actions : List Action
  envDir : String
  deriving DecidableEq, Repr

/-- `create_env` (`none` when an inner `conda_run` assertion fails). -/
def create_env (g : Ctx) (conda_base app_name : String) (pyversion : String := "3.8")
    (pip_install : List String := []) : Option EnvResult := do
  let env_dir := pyJoinList conda_base ["envs", app_name]
  let pre : List Action :=
    (if g.pathExists env_dir then
      [Action.logInfo ("Deleting existing conda environment " ++ app_name),
       Action.rmtree env_dir]
    else []) ++
    [Action.logInfo ("Creating conda environment " ++ app_name)]
  let (_, acts1) ← conda_run g conda_base
    ["conda", "create", "-n", app_name, "-c", "conda-forge", "-y", "python=" ++ pyversion]
  let pip_install := if pip_install = [] then [app_name] else pip_install
  let (_, acts2) ← conda_run g conda_base
    (["pip", "install", "--ignore-installed"] ++ pip_install) app_name
  return { actions := pre ++ acts1 ++ [Action.logInfo "Installing packages with pip"] ++ acts2
           envDir := env_dir }

/-- The package arguments of each `pip install --ignore-installed` invocation
occurring in a trace (observation function used by the theorems). -/
def pipPackageArgs (acts : List Action) : List (List String) :=
  acts.filterMap fun a =>
    match a with
    | Action.runProc args _ =>
      if args.take 3 = ["pip", "install", "--ignore-installed"] then some (args.drop 3)
      else none
    | _ => none

/-- Characters stripped by `path.basename(app_path).strip(".app")`: Python's
`str.strip` treats its argument as a character set. -/
def stripSet : List Char := ['.', 'a', 'p']

/-- The launcher script name computed by `create_exe`:
`path.basename(app_path).strip(".app")`. -/
def exeName (app_path : String) : String :=
  pyStrip stripSet (basename app_path)

/-- Whether `s` starts with a character of `stripSet` (observation used to
state when `strip(".app")` leaves an app name intact). -/
def startsInStripSet (s : String) : Bool :=
  (s.toList.head?.map stripSet.contains).getD false

/-- Whether `s` ends with a character of `stripSet`. -/
def endsInStripSet (s : String) : Bool :=
  (s.toList.getLast?.map stripSet.contains).getD false

/-- Text of the launcher script written by `create_exe`. -/
def exeScript (app_name : String) : String :=
  "#!/usr/bin/env bash\n" ++
  "script_dir=$(dirname \"$(dirname \"$0\")\")\n" ++
  "export PATH=:\"$script_dir/Resources/bin/\":$PATH\n" ++
  "\"$script_dir/Resources/bin/python\" " ++
  "\"$script_dir/Resources/bin/" ++ app_name ++ "\" $@"

/-- The permission word installed by `create_exe`'s `chmod`: the current bits
with `stat.S_IXUSR | stat.S_IXGRP | stat.S_IXOTH` (octal `111`) added. -/
def execMode (current : Nat) : Nat :=
  current ||| 0o100 ||| 0o10 ||| 0o1

/-- `create_exe` as an action trace; `currentMode` is
`stat.S_IMODE(lstat(exe_path).st_mode)` observed between the write and the
`chmod`. -/
def create_exe (app_path : String) (currentMode : Nat) : List Action :=
  let app_name := exeName app_path
  let exe_path := pyJoinList app_path ["Contents", "MacOS", app_name]
  [Action.writeFile exe_path (exeScript app_name),
   Action.chmodTo exe_path (execMode currentMode)]

/-- The template substitution performed by `create_info_plist`; `template` is
the text of `Info.template.plist` and `year` is `datetime.now().year`. -/
def renderPlist (template app_name : String) (icon_name : String := "")
    (version : String := "0.1.0") (app_author : String := "")
    (copyright : String := "") (year : Nat := 2020) : String :=
  let t := pyReplace template "\x7b\x7b app_name \x7d\x7d" app_name
  let t := pyReplace t "\x7b\x7b app_author \x7d\x7d"
    (if app_author = "" then app_name else app_author)
  let t := pyReplace t "\x7b\x7b app_icon \x7d\x7d" icon_name
  let t := pyReplace t "\x7b\x7b app_version \x7d\x7d" version
  let t := pyReplace t "\x7b\x7b year \x7d\x7d" (toString year)
  let t := pyReplace t "\x7b\x7b copyright \x7d\x7d"
    (if copyright = "" then app_name ++ " contributors" else copyright)
  t

/-- `create_info_plist`: renders the template and writes it to
`Contents/Info.plist` under the bundle. -/
def create_info_plist (template app_path app_name : String) (icon_name : String := "")
    (version : String := "0.1.0") (app_author : String := "")
    (copyright : String := "") (year : Nat := 2020) : List Action :=
  [Action.writeFile (pyJoinList app_path ["Contents", "Info.plist"])
    (renderPlist template app_name icon_name version app_author copyright year)]

/-- `copy_icon`.  Note the icon path resolved from the `icon` parameter (or the
bundled default `icon.icns` next to the script) is immediately clobbered: the
next line rebinds `icon` to `path.abspath(path.expanduser(args.icon))`, reading
the module-global CLI arguments.  Returns the trace and the returned
basename. -/
def copy_icon (g : Ctx) (icon : String) (app_path : String) : List Action × String :=
  let icon := if icon = "" then pyJoin g.scriptDir "icon.icns" else icon
  let icon := abspath g.cwd (expanduser g.home g.argsIcon)
  if g.isFile icon then
    let icon_basename := basename icon
    ([Action.logInfo ("Copying icon from " ++ icon ++ " to bundle"),
      Action.copyFile icon (pyJoinList app_path ["Contents", "Resources", icon_basename])],
     icon_basename)
  else
    ([Action.logWarning ("Could not find icon at " ++ icon)], "")

/-- Outcome of the `hdiutil` subprocess observed by `make_dmg`. -/
structure DmgCtx where
  returncode : Int
  stderr : String
  deriving DecidableEq, Repr

/-- `make_dmg`.  A total function: neither branch of the return-code check
raises, so the pipeline proceeds past a failure. -/
def make_dmg (g : Ctx) (d : DmgCtx) (app_path : String) (keep_app : Bool := false) :
    List Action :=
  let dmg_dir := pyJoin (dirname app_path) "dmg"
  let dmg_file := pyReplace app_path ".app" ".dmg"
  [Action.makedirs dmg_dir] ++
  (if g.pathExists (pyJoin dmg_dir "Applications") = false then
    [Action.symlinkTo "/Applications" (pyJoin dmg_dir "Applications")]
  else []) ++
  (if keep_app then [Action.copytree app_path dmg_dir] else [Action.move app_path dmg_dir]) ++
  [Action.logInfo "Creating DMG archive...",
   Action.runProc ["hdiutil", "create", dmg_file, "-srcfolder", dmg_dir] none] ++
  (if d.returncode = 0 then
    [Action.logInfo "DMG successfully created", Action.rmtree dmg_dir]
  else
    [Action.logError ("DMG creation failed: " ++ d.stderr)])

/-! Concrete ambient states used to instantiate the theorems. -/

/-- A concrete ambient state: build path and home directory both contain a
space, no `--icon` argument was given while the bundled default `icon.icns`
does exist next to the script, no filesystem path exists yet, and the `glob`
oracle knows the site-packages directories of a conda base at `"/cb"`. -/
def cexCtx : Ctx where
  argsBuildpath := "/tmp/my build"
  argsIcon := ""
  argsDistpath := "/dist"
  cwd := "/work"
  home := "/Users/a b"
  scriptDir := "/src"
  ambientPath := "/usr/bin"
  ambientPythonPath := "/ambient/pp"
  pathExists := fun _ => false
  isFile := fun s => s = "/src/icon.icns"
  isDir := fun _ => true
  glob := fun p =>
    if p = "/cb/lib/python*/site-packages" then ["/cb/lib/python3.8/site-packages"]
    else if p = "/cb/envs/myapp/lib/python*/site-packages" then
      ["/cb/envs/myapp/lib/python3.8/site-packages"]
    else []

/-- A concrete ambient state without spaces anywhere and with every filesystem
path already existing (exercising the cached-runtime branch). -/
def cacheCtx : Ctx where
  argsBuildpath := "/bp"
  argsIcon := "/icons/my.icns"
  argsDistpath := "/dist"
  cwd := "/work"
  home := "/home/u"
  scriptDir := "/src"
  ambientPath := "/usr/bin"
  ambientPythonPath := ""
  pathExists := fun _ => true
  isFile := fun _ => true
  isDir := fun _ => true
  glob := fun _ => []

/-- Like `cacheCtx` but with a space in the build path and nothing existing on
the filesystem yet (exercising the fallback and fresh-install branches). -/
def fallbackCtx : Ctx :=
  { cacheCtx with argsBuildpath := "/tmp/my build", pathExists := fun _ => false }

/-! Claim theorems. -/

/-- Claim C9: the return value of `safe_conda_base` does not depend on its
`buildpath` parameter — the body immediately rebinds `buildpath` from the
module-global `args.buildpath`, so any two parameter values give the same
result under fixed global CLI state. -/
theorem safe_conda_base_ignores_param (g : Ctx) (b₁ b₂ : String) :
    safe_conda_base g b₁ = safe_conda_base g b₂ := rfl

/-- Claim C2 counterexample: with build directory `"/tmp/my build"` (which
contains a space) and home directory `"/Users/a b"`, the preferred location
contains a space, so the fallback `~/_temp_conda` is chosen — but the resolved
runtime-install path `"/Users/a b/_temp_conda"` still contains a space, because
the home directory does. -/
theorem safe_conda_base_space_cex :
    hasSpace cexCtx.argsBuildpath = true ∧
    safe_conda_base cexCtx cexCtx.argsBuildpath = "/Users/a b/_temp_conda" ∧
    hasSpace (safe_conda_base cexCtx cexCtx.argsBuildpath) = true := by
  refine ⟨by decide, by decide, by decide⟩

/-- Claim C2 (amended): if the preferred location (the `conda` subdirectory of
the absolute build path) contains a space, `safe_conda_base` returns the
home-relative fallback `~/_temp_conda`; and the resolved path is space-free
provided the expanded fallback path is space-free — which holds whenever the
home directory itself is space-free, but not in general (see the
counterexample). -/
theorem safe_conda_base_fallback_no_space (g : Ctx) (b : String)
    (hhome : hasSpace (abspath g.cwd (expanduser g.home "~/_temp_conda")) = false) :
    (hasSpace (pyJoin (abspath g.cwd (expanduser g.home g.argsBuildpath)) "conda") = true →
      safe_conda_base g b = abspath g.cwd (expanduser g.home "~/_temp_conda")) ∧
    hasSpace (safe_conda_base g b) = false := by
  by_cases hc :
      hasSpace (pyJoin (abspath g.cwd (expanduser g.home g.argsBuildpath)) "conda") = false
  · constructor
    · intro ht; rw [hc] at ht; cases ht
    · simp [safe_conda_base, hc]
  · have hc' :
        hasSpace (pyJoin (abspath g.cwd (expanduser g.home g.argsBuildpath)) "conda") = true := by
      revert hc
      cases hasSpace (pyJoin (abspath g.cwd (expanduser g.home g.argsBuildpath)) "conda") <;> simp
    constructor
    · intro _; simp [safe_conda_base, hc']
    · simp [safe_conda_base, hc', hhome]

/-- Claim C2 witness: a build path with a space but a space-free home
directory; the fallback is chosen and the resolved path is space-free. -/
theorem safe_conda_base_fallback_no_space_witness :
    (hasSpace (pyJoin (abspath fallbackCtx.cwd
        (expanduser fallbackCtx.home fallbackCtx.argsBuildpath)) "conda") = true →
      safe_conda_base fallbackCtx "b" =
        abspath fallbackCtx.cwd (expanduser fallbackCtx.home "~/_temp_conda")) ∧
    hasSpace (safe_conda_base fallbackCtx "b") = false :=
  safe_conda_base_fallback_no_space fallbackCtx "b" (by decide)

/-- Claim C5: when the resolved conda path already exists, `install_conda`
performs no download and no subprocess invocation — its entire effect trace is
one log line — and it returns (and stores into `CONDA_BASE`) the resolved
path. -/
theorem install_conda_cached_noop (g : Ctx) (b : String)
    (h : g.pathExists (safe_conda_base g b) = true) :
    install_conda g b =
      { actions := [Action.logInfo
          ("Using existing miniconda installation at " ++ safe_conda_base g b)]
        condaBase := safe_conda_base g b
        result := safe_conda_base g b } := by
  simp [install_conda, h]

/-- Claim C5 witness: instantiation at a state whose filesystem reports every
path as existing. -/
theorem install_conda_cached_noop_witness :
    install_conda cacheCtx "/b" =
      { actions := [Action.logInfo
          ("Using existing miniconda installation at " ++ safe_conda_base cacheCtx "/b")]
        condaBase := safe_conda_base cacheCtx "/b"
        result := safe_conda_base cacheCtx "/b" } :=
  install_conda_cached_noop cacheCtx "/b" (by decide)

/-- Claim C3: when the resolved conda path does not exist, the installer is
invoked as `bash <installer> -b -p "<conda_dir>"` where the argument after
`-p` is the resolved path wrapped in literal double-quote characters — a
different string from the resolved path that gated the cache check. -/
theorem install_conda_quoted_prefix_arg (g : Ctx) (b : String)
    (h : g.pathExists (safe_conda_base g b) = false) :
    Action.runProc
        ["bash", pyJoin b "miniconda_installer.sh", "-b", "-p",
         "\"" ++ safe_conda_base g b ++ "\""] none ∈ (install_conda g b).actions ∧
    "\"" ++ safe_conda_base g b ++ "\"" ≠ safe_conda_base g b := by
  constructor
  · simp only [install_conda, h]
    simp only [eq_self_iff_true, if_true]
    split <;> simp
  · intro he
    have hlen := congrArg String.length he
    simp only [String.length_append, show ("\"" : String).length = 1 from rfl] at hlen
    omega

/-- Claim C3 witness: instantiation at a state with an empty filesystem. -/
theorem install_conda_quoted_prefix_arg_witness :
    Action.runProc
        ["bash", pyJoin "/b" "miniconda_installer.sh", "-b", "-p",
         "\"" ++ safe_conda_base fallbackCtx "/b" ++ "\""] none
      ∈ (install_conda fallbackCtx "/b").actions ∧
    "\"" ++ safe_conda_base fallbackCtx "/b" ++ "\"" ≠ safe_conda_base fallbackCtx "/b" :=
  install_conda_quoted_prefix_arg fallbackCtx "/b" (by decide)

/-- Claim C7: `create_exe` chmods the launcher script to its previous
permission word with the execute bits for owner (bit 6), group (bit 3) and
other (bit 0) added, preserving every previously set bit, for every prior
permission state. -/
theorem create_exe_adds_exec_bits (p : String) (m : Nat) :
    Action.chmodTo (pyJoinList p ["Contents", "MacOS", exeName p]) (execMode m)
        ∈ create_exe p m ∧
    (execMode m).testBit 6 = true ∧
    (execMode m).testBit 3 = true ∧
    (execMode m).testBit 0 = true ∧
    ∀ i, m.testBit i = true → (execMode m).testBit i = true := by
  refine ⟨by simp [create_exe], ?_, ?_, ?_, ?_⟩
  · simp [execMode, Nat.testBit_lor, show (0o100 : Nat).testBit 6 = true from by decide]
  · simp [execMode, Nat.testBit_lor, show (0o10 : Nat).testBit 3 = true from by decide]
  · simp [execMode, Nat.testBit_lor, show (0o1 : Nat).testBit 0 = true from by decide]
  · intro i hi
    simp [execMode, Nat.testBit_lor, hi]

/-- Claim C7 witness: instantiation at a file that previously had mode `0o644`
(no execute bits); bit 7 (owner write is bit 7 of `0o644`) is preserved. -/
theorem create_exe_adds_exec_bits_witness :
    Action.chmodTo
        (pyJoinList "/dist/napari.app" ["Contents", "MacOS", exeName "/dist/napari.app"])
        (execMode 0o644) ∈ create_exe "/dist/napari.app" 0o644 ∧
    (execMode 0o644).testBit 6 = true ∧
    (execMode 0o644).testBit 3 = true ∧
    (execMode 0o644).testBit 0 = true ∧
    (execMode 0o644).testBit 7 = true :=
  have h := create_exe_adds_exec_bits "/dist/napari.app" 0o644
  ⟨h.1, h.2.1, h.2.2.1, h.2.2.2.1, h.2.2.2.2 7 (by decide)⟩

/-- Claim C8: if `hdiutil` exits with status zero, `make_dmg` deletes the
staging directory and logs success; on a non-zero status it logs the captured
error output, deletes nothing (no `rmtree` at all, staging directory intact)
and — being a total function — raises nothing, so the pipeline proceeds. -/
theorem make_dmg_outcomes (g : Ctx) (d : DmgCtx) (p : String) (keep : Bool) :
    (d.returncode = 0 →
      Action.rmtree (pyJoin (dirname p) "dmg") ∈ make_dmg g d p keep ∧
      Action.logInfo "DMG successfully created" ∈ make_dmg g d p keep) ∧
    (d.returncode ≠ 0 →
      (∀ q, Action.rmtree q ∉ make_dmg g d p keep) ∧
      Action.logError ("DMG creation failed: " ++ d.stderr) ∈ make_dmg g d p keep) := by
  constructor
  · intro h
    constructor <;> (simp [make_dmg, h])
  · intro h
    refine ⟨fun q => ?_, ?_⟩ <;>
      · simp only [make_dmg]
        rw [if_neg h]
        split <;> split <;> simp

/-- Claim C8 witness: instantiation at a zero and at a nonzero `hdiutil` exit
status. -/
theorem make_dmg_outcomes_witness :
    (Action.rmtree (pyJoin (dirname "/dist/napari.app") "dmg")
        ∈ make_dmg cacheCtx ⟨0, ""⟩ "/dist/napari.app" false ∧
      Action.logInfo "DMG successfully created"
        ∈ make_dmg cacheCtx ⟨0, ""⟩ "/dist/napari.app" false) ∧
    ((∀ q, Action.rmtree q ∉ make_dmg cacheCtx ⟨1, "boom"⟩ "/dist/napari.app" false) ∧
      Action.logError ("DMG creation failed: " ++ "boom")
        ∈ make_dmg cacheCtx ⟨1, "boom"⟩ "/dist/napari.app" false) :=
  ⟨(make_dmg_outcomes cacheCtx ⟨0, ""⟩ "/dist/napari.app" false).1 rfl,
   (make_dmg_outcomes cacheCtx ⟨1, "boom"⟩ "/dist/napari.app" false).2 (by decide)⟩

/-- Claim C4 (code bug): with no explicit icon given (`args.icon = ""`) and the
bundled default `icon.icns` present next to the script, `copy_icon` does NOT
resolve to the bundled default: the line `icon =
path.abspath(path.expanduser(args.icon))` rebinds `icon` from the module-global
CLI arguments, clobbering the default just computed, so the resolved path is
`abspath("")` — the working directory — which is not a file; a warning is
logged and `""` is returned, and `create_info_plist` substitutes `""` for the
icon placeholder.  This contradicts the CLI help text ("By default, looks for
'icon.icns' in same directory"). -/
theorem copy_icon_default_ignored_bug :
    cexCtx.argsIcon = "" ∧
    cexCtx.isFile (pyJoin cexCtx.scriptDir "icon.icns") = true ∧
    copy_icon cexCtx "" "/dist/napari.app" =
      ([Action.logWarning "Could not find icon at /work"], "") ∧
    renderPlist "\x7b\x7b app_icon \x7d\x7d" "napari"
      (copy_icon cexCtx "" "/dist/napari.app").2 = "" := by
  refine ⟨rfl, by decide, by decide, by decide⟩

/-- Claim C1 counterexample: for a named environment, `conda_run` REPLACES
`PYTHONPATH` rather than prepending to it — the ambient `PYTHONPATH` value does
not occur anywhere in the resulting `PYTHONPATH` (here: not even as a
contiguous sublist), so it is in particular not a suffix of it as "prepended
ahead of the ambient value" would require. -/
theorem conda_run_pythonpath_cex :
    (conda_run cexCtx "/cb" ["pip", "install", "--ignore-installed", "x"] "myapp").map
        (fun r => r.1.pythonPath) = some "/cb/envs/myapp/lib/python3.8/site-packages" ∧
    cexCtx.ambientPythonPath = "/ambient/pp" ∧
    ¬ ("/ambient/pp".toList <:+: "/cb/envs/myapp/lib/python3.8/site-packages".toList) := by
  refine ⟨by decide, rfl, by decide⟩

/-- Claim C1 (amended): for an invocation of `conda_run` with a named (non-base)
environment, the spawned process's `PATH` is the environment's `bin` directory,
then the base `bin` directory, then the ambient `PATH` (the ambient value is
preserved as a suffix, behind the prepended entries); `PYTHONPATH`, however, is
set to exactly the environment's site-packages glob results joined with `":"`,
discarding the ambient `PYTHONPATH` entirely. -/
theorem conda_run_named_env_paths (g : Ctx) (cb : String) (args : List String)
    (name : String) (hdir : g.isDir cb = true) (hname : name ≠ "base") :
    (conda_run g cb args name).map Prod.fst =
      some { path := pyJoin (pyJoinList cb ["envs", name]) "bin" ++ ":" ++
               (pyJoin cb "bin" ++ ":" ++ g.ambientPath)
             pythonPath := String.intercalate ":"
               (g.glob (pyJoinList cb ["envs", name] ++ "/lib/python*/site-packages")) } := by
  simp [conda_run, hdir, hname]

/-- Claim C1 witness: instantiation at a concrete state and environment name. -/
theorem conda_run_named_env_paths_witness :
    (conda_run cexCtx "/cb" ["pip"] "myapp").map Prod.fst =
      some { path := pyJoin (pyJoinList "/cb" ["envs", "myapp"]) "bin" ++ ":" ++
               (pyJoin "/cb" "bin" ++ ":" ++ cexCtx.ambientPath)
             pythonPath := String.intercalate ":"
               (cexCtx.glob (pyJoinList "/cb" ["envs", "myapp"] ++
                 "/lib/python*/site-packages")) } :=
  conda_run_named_env_paths cexCtx "/cb" ["pip"] "myapp" rfl (by decide)

/-- Claim C6: when `create_env` is called with an empty explicit package list,
the trace contains exactly one `pip install --ignore-installed` invocation, and
its package-argument list is exactly the one-element list holding the
application name. -/
theorem create_env_default_pip_single_package (g : Ctx) (cb app py : String)
    (hdir : g.isDir cb = true) :
    (create_env g cb app py []).map (fun r => pipPackageArgs r.actions) = some [[app]] := by
  by_cases hex : g.pathExists (pyJoinList cb ["envs", app]) = true <;>
    simp [create_env, conda_run, hdir, hex, pipPackageArgs]

/-- Claim C6 witness: instantiation at a concrete state with app name
`"napari"`. -/
theorem create_env_default_pip_single_package_witness :
    (create_env cexCtx "/cb" "napari" "3.8" []).map (fun r => pipPackageArgs r.actions) =
      some [["napari"]] :=
  create_env_default_pip_single_package cexCtx "/cb" "napari" "3.8" rfl

/-! Helper lemmas about `str.strip`-style stripping, used for claim C10. -/

/-- Right-stripping is unaffected by first appending a suffix whose characters
all satisfy the predicate. -/
theorem rdropWhile_append_sat (p : Char → Bool) (l suf : List Char)
    (h : ∀ x ∈ suf, p x = true) :
    List.rdropWhile p (l ++ suf) = List.rdropWhile p l := by
  unfold List.rdropWhile
  rw [List.reverse_append,
    List.dropWhile_append_of_pos (fun a ha => h a (List.mem_reverse.mp ha))]

/-- `basename` is the identity on strings without a slash. -/
theorem basename_no_slash (s : String) (h : '/' ∉ s.toList) : basename s = s := by
  unfold basename
  have hd : s.toList.reverse.dropWhile (· ≠ '/') = [] := by
    rw [List.dropWhile_eq_nil_iff]
    intro x hx
    simp only [ne_eq, decide_eq_true_eq]
    rintro rfl
    exact h (List.mem_reverse.mp hx)
  have ht : s.toList.reverse.takeWhile (· ≠ '/') = s.toList.reverse := by
    have hsplit := List.takeWhile_append_dropWhile (p := (· ≠ '/')) (l := s.toList.reverse)
    rw [hd, List.append_nil] at hsplit
    exact hsplit
  rw [ht, List.reverse_reverse]
  rfl

/-- The head of `dropWhile p l`, if any, falsifies `p`. -/
theorem dropWhile_head?_not (p : Char → Bool) :
    ∀ (l : List Char) (c : Char), (l.dropWhile p).head? = some c → p c = false := by
  intro l
  induction l with
  | nil => intro c h; cases h
  | cons a l ih =>
    intro c h
    cases hpa : p a with
    | true =>
      rw [List.dropWhile_cons_of_pos hpa] at h
      exact ih c h
    | false =>
      rw [List.dropWhile_cons_of_neg (by simp [hpa])] at h
      have hac : a = c := by simpa using h
      exact hac ▸ hpa

/-- The first character of a stripped string lies outside the strip set. -/
theorem pyStrip_head_not (chars : List Char) (s : String) (c : Char)
    (h : (pyStrip chars s).toList.head? = some c) : chars.contains c = false := by
  replace h :
      (List.rdropWhile (chars.contains ·)
        (s.toList.dropWhile (chars.contains ·))).head? = some c := h
  obtain ⟨t, ht⟩ :=
    List.rdropWhile_prefix (chars.contains ·) (s.toList.dropWhile (chars.contains ·))
  have h' : (s.toList.dropWhile (chars.contains ·)).head? = some c := by
    rw [← ht]
    rcases hx : List.rdropWhile (chars.contains ·)
        (s.toList.dropWhile (chars.contains ·)) with _ | ⟨a, l'⟩
    · rw [hx] at h; cases h
    · rw [hx] at h
      simpa using h
  exact dropWhile_head?_not _ _ _ h'

/-- The last character of a stripped string lies outside the strip set. -/
theorem pyStrip_getLast_not (chars : List Char) (s : String) (c : Char)
    (h : (pyStrip chars s).toList.getLast? = some c) : chars.contains c = false := by
  replace h :
      (List.rdropWhile (chars.contains ·)
        (s.toList.dropWhile (chars.contains ·))).getLast? = some c := h
  unfold List.rdropWhile at h
  rw [List.getLast?_reverse] at h
  exact dropWhile_head?_not _ _ _ h

/-- Stripping `name ++ ".app"` gives back `name` when `name` neither starts nor
ends with a strip-set character. -/
theorem pyStrip_append_app (name : String) (hs : startsInStripSet name = false)
    (he : endsInStripSet name = false) :
    pyStrip stripSet (name ++ ".app") = name := by
  by_cases h0 : name = ""
  · subst h0; decide
  · obtain ⟨c, rest, hnl⟩ : ∃ c rest, name.toList = c :: rest := by
      rcases hl : name.toList with _ | ⟨c, rest⟩
      · exact absurd (String.ext hl) h0
      · exact ⟨c, rest, rfl⟩
    have hc : stripSet.contains c = false := by
      unfold startsInStripSet at hs
      rw [hnl] at hs
      simpa using hs
    have hlast : ∀ hne : name.toList ≠ [],
        stripSet.contains (name.toList.getLast hne) = false := by
      intro hne
      unfold endsInStripSet at he
      rw [List.getLast?_eq_getLast _ hne] at he
      simpa using he
    have happ : (name ++ ".app").toList = name.toList ++ ['.', 'a', 'p', 'p'] :=
      String.data_append name ".app"
    unfold pyStrip
    rw [happ, hnl, List.cons_append,
      List.dropWhile_cons_of_neg (by simp only [hc]; decide), ← List.cons_append, ← hnl,
      rdropWhile_append_sat _ _ _ (by decide),
      List.rdropWhile_eq_self_iff.mpr (fun hne => by simp only [hlast hne]; decide)]
    rfl

/-- The name comparison of claim C10, as an iff. -/
theorem exeName_eq_self_iff (name : String) (hslash : '/' ∉ name.toList) :
    exeName (name ++ ".app") = name ↔
      startsInStripSet name = false ∧ endsInStripSet name = false := by
  have happ : (name ++ ".app").toList = name.toList ++ ['.', 'a', 'p', 'p'] :=
    String.data_append name ".app"
  have hslash' : '/' ∉ (name ++ ".app").toList := by
    rw [happ]
    intro hmem
    rcases List.mem_append.mp hmem with h1 | h2
    · exact hslash h1
    · exact absurd h2 (by decide)
  constructor
  · intro h
    unfold exeName at h
    rw [basename_no_slash _ hslash'] at h
    by_cases h0 : name = ""
    · subst h0; exact ⟨rfl, rfl⟩
    · obtain ⟨c, rest, hnl⟩ : ∃ c rest, name.toList = c :: rest := by
        rcases hl : name.toList with _ | ⟨c, rest⟩
        · exact absurd (String.ext hl) h0
        · exact ⟨c, rest, rfl⟩
      have hne : name.toList ≠ [] := by rw [hnl]; simp
      have hh : (pyStrip stripSet (name ++ ".app")).toList.head? = some c := by
        rw [h, hnl]; rfl
      have hc := pyStrip_head_not stripSet (name ++ ".app") c hh
      have hg : (pyStrip stripSet (name ++ ".app")).toList.getLast? =
          some (name.toList.getLast hne) := by
        rw [h]; exact List.getLast?_eq_getLast _ hne
      have hcl := pyStrip_getLast_not stripSet (name ++ ".app") _ hg
      constructor
      · unfold startsInStripSet
        rw [hnl]
        simpa using hc
      · unfold endsInStripSet
        rw [List.getLast?_eq_getLast _ hne]
        simpa using hcl
  · rintro ⟨hs, he⟩
    unfold exeName
    rw [basename_no_slash _ hslash']
    exact pyStrip_append_app name hs he

/-- Claim C10: the launcher script is named by stripping all leading and
trailing characters from the set `{'.', 'a', 'p'}` off the bundle directory's
basename `name ++ ".app"`; the result equals the application name exactly when
the name neither starts nor ends with such a character, and for example an app
named `"gimp"` gets a script named `"gim"`. -/
theorem create_exe_script_name (name : String) (hslash : '/' ∉ name.toList) :
    (exeName (name ++ ".app") = name ↔
      startsInStripSet name = false ∧ endsInStripSet name = false) ∧
    exeName ("gimp" ++ ".app") ≠ "gimp" := by
  refine ⟨exeName_eq_self_iff name hslash, by decide⟩

/-- Claim C10 witness: for the default app name `"napari"` (which neither
starts nor ends with a strip-set character) the script name is intact. -/
theorem create_exe_script_name_witness : exeName ("napari" ++ ".app") = "napari" :=
  ((create_exe_script_name "napari" (by decide)).1).mpr (by decide)

end Bundler

